import Mathlib

/-!
Verification of `camera_monitor.py` (elgato-camera-light repository).

The script spawns a `log stream` child process, reads its stdout line by
line, and classifies each line by substring containment:

  if "Insta360" in line:
      if "addInput:" in line: print "[ts] 🟢 Camera STARTED (Active)"
      elif "removeInput:" in line: print "[ts] 🔴 Camera STOPPED (Inactive)"

The loop breaks when `readline` returns the empty string.  A
`KeyboardInterrupt` handler prints a stopping message and calls
`process.terminate()`; a catch-all `except Exception` handler prints
"Error: {e}" and calls `process.terminate()`.  Nothing guards the
`terminate()` calls themselves, and nothing after the `try` statement
calls `terminate()` on the end-of-stream path.

Below, strings are Lean `String`s, Python substring containment is
`infixAt` on the character lists, timestamps are an oracle
`clock : Nat → String` indexed by the number of events printed so far
(each event print calls `datetime.now().strftime(...)` once), and the
read loop is a function over a finite list of read outcomes.
-/

/-- The two device-activity events the script can report for a line
(`DeviceActivityEvent` of the spec). -/
inductive Event where
  | Started
  | Stopped
deriving DecidableEq, Repr

/-- `pat` occurs as a contiguous run starting at some suffix of the
second list (helper for Python string containment). -/
def infixAt (pat : List Char) : List Char → Bool
  | [] => pat.isEmpty
  | c :: rest => pat.isPrefixOf (c :: rest) || infixAt pat rest

/-- Python `pat in s` for strings: exact, case-sensitive substring
containment of the character sequence `pat` in `s`. -/
def containsStr (s pat : String) : Bool :=
  infixAt pat.toList s.toList

/-- Classification of one line of subprocess output, embedding lines
25-33 of `camera_monitor.py`: the `"Insta360" in line` guard first, then
`"addInput:" in line`, then `elif "removeInput:" in line`. -/
def classify (line : String) : Option Event :=
  if containsStr line "Insta360" then
    if containsStr line "addInput:" then
      some Event.Started
    else if containsStr line "removeInput:" then
      some Event.Stopped
    else
      none
  else
    none

/-- One message printed by the monitor loop, prior to rendering:
an event line with its timestamp string, the `"Error: {e}"` line of the
catch-all handler, or the `"\nStopping monitor..."` line of the
`KeyboardInterrupt` handler. -/
inductive OutMsg where
  | event (ts : String) (e : Event)
  | errorMsg (msg : String)
  | stopping
deriving DecidableEq, Repr

/-- Rendering of a message to the exact console string printed by the
script (lines 28, 32, 36 and 39 of `camera_monitor.py`). -/
def OutMsg.render : OutMsg → String
  | OutMsg.event ts Event.Started => "[" ++ ts ++ "] 🟢 Camera STARTED (Active)"
  | OutMsg.event ts Event.Stopped => "[" ++ ts ++ "] 🔴 Camera STOPPED (Inactive)"
  | OutMsg.errorMsg msg => "Error: " ++ msg
  | OutMsg.stopping => "\nStopping monitor..."

/-- `true` exactly on the `"Error: {e}"` message of the catch-all
handler. -/
def OutMsg.isErrorMsg : OutMsg → Bool
  | OutMsg.errorMsg _ => true
  | _ => false

/-- The messages the body of the loop prints for one line read from the
stream: the rendered event when `classify` fires, nothing otherwise. -/
def processLine (ts : String) (line : String) : List OutMsg :=
  match classify line with
  | some e => [OutMsg.event ts e]
  | none => []

/-- One outcome of a `process.stdout.readline()` call: a returned line
(`ok`, where `ok ""` is end-of-stream), an `Exception` raised during the
read, or a `KeyboardInterrupt` delivered at the read. -/
inductive ReadResult where
  | ok (s : String)
  | exnRaised (msg : String)
  | interrupt
deriving DecidableEq, Repr

/-- Result of running the `try`/`except` statement of `monitor_camera`:
the messages printed (in order), the number of `process.terminate()`
calls issued, and whether an exception propagated out of the function. -/
structure RunResult where
  msgs : List OutMsg
  terminateCalls : Nat
  escaped : Bool
deriving DecidableEq, Repr

/-- The `try`/`except` statement of `monitor_camera` (lines 18-40),
run over a finite prefix `reads` of read outcomes; an exhausted `reads`
list is read as end-of-stream.  `clock k` is the timestamp the `k`-th
`datetime.now().strftime(...)` call produces; `terminateRaises` says
whether a `process.terminate()` call itself raises.  On `ok ""` the
loop breaks and the function returns: no handler runs, so no terminate
call is issued.  On an `Exception` during the read the handler prints
`"Error: {e}"` and calls `terminate()`; on `KeyboardInterrupt` it prints
the stopping message and calls `terminate()`.  An exception raised by
`terminate()` inside a handler is unguarded and escapes. -/
def monitorLoop (clock : Nat → String) (terminateRaises : Bool) :
    List ReadResult → Nat → RunResult
  | [], _ => ⟨[], 0, false⟩
  | ReadResult.ok s :: rest, k =>
    if s = "" then
      ⟨[], 0, false⟩
    else
      let out := processLine (clock k) s
      let r := monitorLoop clock terminateRaises rest (k + out.length)
      ⟨out ++ r.msgs, r.terminateCalls, r.escaped⟩
  | ReadResult.exnRaised msg :: _, _ =>
    ⟨[OutMsg.errorMsg msg], 1, terminateRaises⟩
  | ReadResult.interrupt :: _, _ =>
    ⟨[OutMsg.stopping], 1, terminateRaises⟩

/-- The three banner lines printed before the loop (lines 6-8). -/
def headerLines : List String :=
  ["Starting Camera Monitor for macOS (Insta360 Specific)...",
   "Looking for \x27Insta360 Link\x27 session events.",
   "Press Ctrl+C to stop."]

/-- Whole-function model of `monitor_camera`: the banner lines followed
by the rendered loop output, with the terminate count and escape flag of
the loop. -/
def monitor_camera (clock : Nat → String) (terminateRaises : Bool)
    (reads : List ReadResult) : List String × Nat × Bool :=
  let r := monitorLoop clock terminateRaises reads 0
  (headerLines ++ r.msgs.map OutMsg.render, r.terminateCalls, r.escaped)

/-- The digit character for `n < 10` (code point `48 + n`). -/
def digitChar (n : Nat) : Char :=
  Char.ofNat (48 + n)

/-- Zero-padded two-digit decimal field, as `strftime` renders `%m`,
`%d`, `%H`, `%M`, `%S` for their in-range values. -/
def pad2 (n : Nat) : String :=
  ⟨[digitChar (n / 10 % 10), digitChar (n % 10)]⟩

/-- Zero-padded four-digit decimal field, as `strftime` renders `%Y`
for years between 1000 and 9999. -/
def pad4 (n : Nat) : String :=
  ⟨[digitChar (n / 1000 % 10), digitChar (n / 100 % 10),
    digitChar (n / 10 % 10), digitChar (n % 10)]⟩

/-- The local wall-clock instant `datetime.now()` returns, at second
precision: the six fields the format string mentions. -/
structure DateTime where
  year : Nat
  month : Nat
  day : Nat
  hour : Nat
  minute : Nat
  second : Nat
deriving DecidableEq, Repr

/-- `datetime.now().strftime("%Y-%m-%d %H:%M:%S")` (lines 27 and 31 of
`camera_monitor.py`): each field zero-padded, joined by the literal
separators of the format string. -/
def strftimeTimestamp (dt : DateTime) : String :=
  pad4 dt.year ++ "-" ++ pad2 dt.month ++ "-" ++ pad2 dt.day ++ " " ++
    pad2 dt.hour ++ ":" ++ pad2 dt.minute ++ ":" ++ pad2 dt.second

/-- Checks the `YYYY-MM-DD HH:MM:SS` shape the spec names: nineteen
characters, digits in the date and time positions, `-`, space and `:`
separators. -/
def isTimestampFormat (s : String) : Bool :=
  match s.toList with
  | [y1, y2, y3, y4, p1, m1, m2, p2, d1, d2, p3, h1, h2, p4, n1, n2, p5, s1, s2] =>
    y1.isDigit && y2.isDigit && y3.isDigit && y4.isDigit &&
    m1.isDigit && m2.isDigit && d1.isDigit && d2.isDigit &&
    h1.isDigit && h2.isDigit && n1.isDigit && n2.isDigit &&
    s1.isDigit && s2.isDigit &&
    (p1 == '-') && (p2 == '-') && (p3 == ' ') && (p4 == ':') && (p5 == ':')
  | _ => false

theorem digitChar_mod_isDigit (m : Nat) : (digitChar (m % 10)).isDigit = true := by
  have h : m % 10 < 10 := Nat.mod_lt _ (by decide)
  revert h
  generalize m % 10 = k
  intro h
  interval_cases k <;> decide

theorem strftime_toList (dt : DateTime) :
    (strftimeTimestamp dt).toList =
      [digitChar (dt.year / 1000 % 10), digitChar (dt.year / 100 % 10),
       digitChar (dt.year / 10 % 10), digitChar (dt.year % 10), '-',
       digitChar (dt.month / 10 % 10), digitChar (dt.month % 10), '-',
       digitChar (dt.day / 10 % 10), digitChar (dt.day % 10), ' ',
       digitChar (dt.hour / 10 % 10), digitChar (dt.hour % 10), ':',
       digitChar (dt.minute / 10 % 10), digitChar (dt.minute % 10), ':',
       digitChar (dt.second / 10 % 10), digitChar (dt.second % 10)] := rfl

/-- Claim C1: a line containing the device marker "Insta360" and the
"addInput:" marker classifies as exactly one `Started` event, rendered
as exactly one STARTED line — with no hypothesis about "removeInput:",
so this holds even when that marker is also present, because the
add-check is evaluated first. -/
theorem c1_add_marker_yields_one_started (ts line : String)
    (hdev : containsStr line "Insta360" = true)
    (hadd : containsStr line "addInput:" = true) :
    classify line = some Event.Started ∧
    processLine ts line = [OutMsg.event ts Event.Started] ∧
    (processLine ts line).map OutMsg.render =
      ["[" ++ ts ++ "] 🟢 Camera STARTED (Active)"] := by
  have hc : classify line = some Event.Started := by
    simp [classify, hdev, hadd]
  exact ⟨hc, by simp [processLine, hc], by simp [processLine, hc, OutMsg.render]⟩

theorem c1_add_marker_yields_one_started_witness :
    (containsStr "log Insta360 Link addInput: removeInput: device" "Insta360" = true ∧
     containsStr "log Insta360 Link addInput: removeInput: device" "addInput:" = true) ∧
    classify "log Insta360 Link addInput: removeInput: device" = some Event.Started :=
  ⟨⟨by decide, by decide⟩,
   (c1_add_marker_yields_one_started "2024-01-01 00:00:00"
     "log Insta360 Link addInput: removeInput: device" (by decide) (by decide)).1⟩

/-- Claim C2: a line containing the device marker "Insta360" and the
"removeInput:" marker but not the "addInput:" marker classifies as
exactly one `Stopped` event, rendered as exactly one STOPPED line. -/
theorem c2_remove_marker_yields_one_stopped (ts line : String)
    (hdev : containsStr line "Insta360" = true)
    (hadd : containsStr line "addInput:" = false)
    (hrem : containsStr line "removeInput:" = true) :
    classify line = some Event.Stopped ∧
    processLine ts line = [OutMsg.event ts Event.Stopped] ∧
    (processLine ts line).map OutMsg.render =
      ["[" ++ ts ++ "] 🔴 Camera STOPPED (Inactive)"] := by
  have hc : classify line = some Event.Stopped := by
    simp [classify, hdev, hadd, hrem]
  exact ⟨hc, by simp [processLine, hc], by simp [processLine, hc, OutMsg.render]⟩

theorem c2_remove_marker_yields_one_stopped_witness :
    (containsStr "log Insta360 Link removeInput: device" "Insta360" = true ∧
     containsStr "log Insta360 Link removeInput: device" "addInput:" = false ∧
     containsStr "log Insta360 Link removeInput: device" "removeInput:" = true) ∧
    classify "log Insta360 Link removeInput: device" = some Event.Stopped :=
  ⟨⟨by decide, by decide, by decide⟩,
   (c2_remove_marker_yields_one_stopped "2024-01-01 00:00:00"
     "log Insta360 Link removeInput: device" (by decide) (by decide) (by decide)).1⟩

/-- Claim C3: a line not containing the device marker "Insta360"
produces no event and no output, whatever else it contains. -/
theorem c3_no_device_marker_no_event (ts line : String)
    (hdev : containsStr line "Insta360" = false) :
    classify line = none ∧ processLine ts line = [] := by
  have hc : classify line = none := by simp [classify, hdev]
  exact ⟨hc, by simp [processLine, hc]⟩

theorem c3_no_device_marker_no_event_witness :
    containsStr "log Logitech addInput: removeInput: Webcam" "Insta360" = false ∧
    classify "log Logitech addInput: removeInput: Webcam" = none :=
  ⟨by decide,
   (c3_no_device_marker_no_event "2024-01-01 00:00:00"
     "log Logitech addInput: removeInput: Webcam" (by decide)).1⟩

/-- Claim C4: every emitted event renders as exactly
`[<timestamp>] <glyph> Camera <STARTED|STOPPED> (<Active|Inactive>)`,
where the timestamp produced by the `strftime` call has the
`YYYY-MM-DD HH:MM:SS` second-precision shape. -/
theorem c4_render_format (dt : DateTime) :
    isTimestampFormat (strftimeTimestamp dt) = true ∧
    OutMsg.render (OutMsg.event (strftimeTimestamp dt) Event.Started) =
      "[" ++ strftimeTimestamp dt ++ "] 🟢 Camera STARTED (Active)" ∧
    OutMsg.render (OutMsg.event (strftimeTimestamp dt) Event.Stopped) =
      "[" ++ strftimeTimestamp dt ++ "] 🔴 Camera STOPPED (Inactive)" := by
  refine ⟨?_, rfl, rfl⟩
  have h := strftime_toList dt
  unfold isTimestampFormat
  rw [h]
  simp [digitChar_mod_isDigit]

theorem processLine_no_error (ts line : String) :
    (processLine ts line).countP (fun m => OutMsg.isErrorMsg m) = 0 := by
  unfold processLine
  split <;> simp [OutMsg.isErrorMsg]

theorem monitorLoop_escaped_false (clock : Nat → String) (reads : List ReadResult) :
    ∀ k, (monitorLoop clock false reads k).escaped = false := by
  induction reads with
  | nil => intro k; rfl
  | cons r rest ih =>
    intro k
    cases r with
    | ok s =>
      by_cases hs : s = ""
      · simp [monitorLoop, hs]
      · simp [monitorLoop, hs, ih]
    | exnRaised msg => rfl
    | interrupt => rfl

theorem monitorLoop_ok_no_error (clock : Nat → String) (tr : Bool) (lines : List String) :
    ∀ k, ((monitorLoop clock tr (lines.map ReadResult.ok) k).msgs.countP
      (fun m => OutMsg.isErrorMsg m)) = 0 := by
  induction lines with
  | nil => intro k; rfl
  | cons l ls ih =>
    intro k
    by_cases hl : l = ""
    · simp [monitorLoop, hl]
    · simp only [List.map, monitorLoop, if_neg hl]
      rw [List.countP_append, processLine_no_error, ih]

/-- Outputs of classifying each line independently, concatenated in
order, with the timestamp oracle advanced by the number of events
already printed. -/
def joinOutputs (clock : Nat → String) : Nat → List String → List OutMsg
  | _, [] => []
  | k, l :: ls =>
    processLine (clock k) l ++
      joinOutputs clock (k + (processLine (clock k) l).length) ls

theorem monitorLoop_msgs_join (clock : Nat → String) (tr : Bool) (lines : List String) :
    ∀ k, (∀ l ∈ lines, l ≠ "") →
      (monitorLoop clock tr (lines.map ReadResult.ok) k).msgs = joinOutputs clock k lines := by
  induction lines with
  | nil => intro k _; rfl
  | cons l ls ih =>
    intro k hne
    have hl : l ≠ "" := hne l (by simp)
    have hls : ∀ x ∈ ls, x ≠ "" := fun x hx => hne x (by simp [hx])
    simp only [List.map, monitorLoop, if_neg hl, joinOutputs]
    rw [ih _ hls]

/-- Claim C5 counterexample: when the `process.terminate()` call inside
the catch-all handler itself raises, the exception escapes
`monitor_camera` — the claim that an error raised by the termination
request does not escape is false. -/
theorem c5_counterexample :
    (monitorLoop (fun _ => "2024-01-01 00:00:00") true
      [ReadResult.exnRaised "boom"] 0).escaped = true := rfl

/-- Claim C5 (amended): every error raised while reading is caught,
reported with an `Error:` message, and followed by a termination
request; as long as the termination call itself does not raise, no
exception propagates out of the monitor function.  An error raised by
the termination request inside a handler, however, does escape. -/
theorem c5_read_errors_caught (clock : Nat → String) (tr : Bool)
    (reads rest : List ReadResult) (msg : String) (k j : Nat) :
    (monitorLoop clock false reads k).escaped = false ∧
    monitorLoop clock tr (ReadResult.exnRaised msg :: rest) j =
      ⟨[OutMsg.errorMsg msg], 1, tr⟩ :=
  ⟨monitorLoop_escaped_false clock reads k, rfl⟩

/-- Claim C6 counterexample: on end-of-stream (`readline` returns the
empty string) the loop breaks out of the `try` block and the function
returns with zero `process.terminate()` calls — the claim that
termination is requested on end-of-stream is false. -/
theorem c6_counterexample :
    (monitorLoop (fun _ => "2024-01-01 00:00:00") false
      [ReadResult.ok ""] 0).terminateCalls = 0 := rfl

/-- Claim C6 (amended): on end-of-stream the loop exits and the monitor
function returns without requesting termination of the child process;
a termination request is issued on an interrupt (and on an exception),
not on end-of-stream. -/
theorem c6_eof_returns_without_terminate (clock : Nat → String) (tr : Bool)
    (rest rest2 : List ReadResult) (k j : Nat) :
    monitorLoop clock tr (ReadResult.ok "" :: rest) k = ⟨[], 0, false⟩ ∧
    (monitorLoop clock tr (ReadResult.interrupt :: rest2) j).terminateCalls = 1 := by
  constructor
  · simp [monitorLoop]
  · rfl

/-- Claim C7: when an exception is raised during a read (after any
number of ordinary non-empty lines), exactly one `Error:` message is
printed, exactly one termination request is issued, and — provided the
termination call itself does not raise — no exception propagates, so
the program exits normally. -/
theorem c7_read_error_one_message_one_terminate (clock : Nat → String)
    (tr : Bool) (lines : List String) (msg : String) (k : Nat)
    (hne : ∀ l ∈ lines, l ≠ "") :
    ((monitorLoop clock tr (lines.map ReadResult.ok ++ [ReadResult.exnRaised msg]) k).msgs.countP
       (fun m => OutMsg.isErrorMsg m)) = 1 ∧
    (monitorLoop clock tr (lines.map ReadResult.ok ++ [ReadResult.exnRaised msg]) k).terminateCalls = 1 ∧
    (tr = false →
      (monitorLoop clock tr (lines.map ReadResult.ok ++ [ReadResult.exnRaised msg]) k).escaped = false) := by
  induction lines generalizing k with
  | nil => exact ⟨rfl, rfl, fun h => by simp [monitorLoop, h]⟩
  | cons l ls ih =>
    have hl : l ≠ "" := hne l (by simp)
    have hls : ∀ x ∈ ls, x ≠ "" := fun x hx => hne x (by simp [hx])
    obtain ⟨ih1, ih2, ih3⟩ := ih (k + (processLine (clock k) l).length) hls
    simp only [List.map, List.cons_append, monitorLoop, if_neg hl]
    refine ⟨?_, ih2, ih3⟩
    rw [List.countP_append, processLine_no_error]
    simpa using ih1

theorem c7_read_error_one_message_one_terminate_witness :
    (∀ l ∈ ["log Insta360 addInput: x", "unrelated"], l ≠ "") ∧
    ((monitorLoop (fun _ => "2024-01-01 00:00:00") false
        (["log Insta360 addInput: x", "unrelated"].map ReadResult.ok ++
          [ReadResult.exnRaised "boom"]) 0).msgs.countP
       (fun m => OutMsg.isErrorMsg m)) = 1 :=
  ⟨by decide,
   (c7_read_error_one_message_one_terminate (fun _ => "2024-01-01 00:00:00")
     false ["log Insta360 addInput: x", "unrelated"] "boom" 0 (by decide)).1⟩

/-- Claim C8: the read loop exits at the first empty read — the rest of
the stream is never consumed and the result is empty — and a stream of
ordinary reads ending this way prints no error message. -/
theorem c8_eof_exits_without_error (clock : Nat → String) (tr : Bool)
    (lines : List String) (rest : List ReadResult) (k j : Nat) :
    monitorLoop clock tr (ReadResult.ok "" :: rest) j = ⟨[], 0, false⟩ ∧
    ((monitorLoop clock tr (lines.map ReadResult.ok) k).msgs.countP
       (fun m => OutMsg.isErrorMsg m)) = 0 :=
  ⟨by simp [monitorLoop], monitorLoop_ok_no_error clock tr lines k⟩

/-- Claim C9: processing is stateless across lines — the loop's output
on a stream of non-empty lines is the concatenation of the per-line
classification outputs, so a repeated Started pattern prints repeated
STARTED messages with no deduplication. -/
theorem c9_stateless_concatenation (clock : Nat → String) (tr : Bool)
    (lines : List String) (k : Nat) (hne : ∀ l ∈ lines, l ≠ "") :
    (monitorLoop clock tr (lines.map ReadResult.ok) k).msgs =
      joinOutputs clock k lines :=
  monitorLoop_msgs_join clock tr lines k hne

theorem c9_stateless_concatenation_witness :
    (∀ l ∈ ["a Insta360 addInput: b", "a Insta360 addInput: b"], l ≠ "") ∧
    (monitorLoop (fun k => toString k) false
        (["a Insta360 addInput: b", "a Insta360 addInput: b"].map ReadResult.ok) 0).msgs =
      joinOutputs (fun k => toString k) 0
        ["a Insta360 addInput: b", "a Insta360 addInput: b"] ∧
    joinOutputs (fun k => toString k) 0
        ["a Insta360 addInput: b", "a Insta360 addInput: b"] =
      [OutMsg.event "0" Event.Started, OutMsg.event "1" Event.Started] :=
  ⟨by decide,
   c9_stateless_concatenation (fun k => toString k) false
     ["a Insta360 addInput: b", "a Insta360 addInput: b"] 0 (by decide),
   by decide⟩

/-- Claim C10: matching is case-sensitive exact substring containment —
an event implies the exact "Insta360" character run is present; lines
with only case variants of the markers produce no event; and no
trimming or tokenisation is applied, so markers embedded in other text
still match. -/
theorem c10_case_sensitive_exact_substring :
    (∀ line : String, (classify line).isSome = true →
      containsStr line "Insta360" = true) ∧
    classify "insta360 Link addinput: stream" = none ∧
    classify "INSTA360 ADDINPUT: stream" = none ∧
    classify "Insta360 Link removeinput: stream" = none ∧
    classify "xxInsta360yyzzaddInput:ww" = some Event.Started := by
  refine ⟨?_, by decide, by decide, by decide, by decide⟩
  intro line h
  by_cases hdev : containsStr line "Insta360" = true
  · exact hdev
  · rw [Bool.not_eq_true] at hdev
    simp [classify, hdev] at h

theorem c10_case_sensitive_exact_substring_witness :
    (classify "Insta360 addInput:").isSome = true ∧
    containsStr "Insta360 addInput:" "Insta360" = true :=
  ⟨by decide, c10_case_sensitive_exact_substring.1 "Insta360 addInput:" (by decide)⟩
